import Mathlib

/-!
# Verification of the JARVIS DNS service registry (src/dns_server/dns_server.py)

Shallow embedding of the service registry and health-aware discovery control
plane implemented by the `DNSServer`, `PowerManagement` and `NetworkDefense`
classes.  Python floats (timestamps, power levels, scores) are modelled as
rationals; Python dicts (which preserve insertion order and have unique keys)
are modelled as association lists with order-preserving get/set/update
operations; `time.time()` values are threaded explicitly as parameters.
-/

namespace DnsServer

/-- Python `d.get(key)` / `d[key]` lookup on an insertion-ordered dict,
modelled on an association list. -/
def dictGet {β : Type} : List (String × β) → String → Option β
  | [], _ => none
  | (k, v) :: rest, key => if k = key then some v else dictGet rest key

/-- Python `d[key] = val`: replaces the value in place when the key exists,
otherwise appends the new binding at the end (dict insertion order). -/
def dictSet {β : Type} : List (String × β) → String → β → List (String × β)
  | [], key, val => [(key, val)]
  | (k, v) :: rest, key, val =>
      if k = key then (key, val) :: rest else (k, v) :: dictSet rest key val

/-- Python `d.update(m)`: sets every binding of `m` into `d`, in order. -/
def dictUpdate {β : Type} (d : List (String × β)) (m : List (String × β)) :
    List (String × β) :=
  m.foldl (fun acc kv => dictSet acc kv.1 kv.2) d

/-- The keys of a dict, in order. -/
def dictKeys {β : Type} (d : List (String × β)) : List String :=
  d.map Prod.fst

/-- Free-form tag map (`metadata: Dict`); requirement filtering compares
values for equality, so values are modelled as strings. -/
abbrev Metadata := List (String × String)

/-- Model of `performance_metrics: Dict` — numeric snapshot, values as rationals. -/
abbrev Metrics := List (String × ℚ)

/-- Model of `ServiceInstance` (pydantic model in the source).  The field defaults of
the pydantic class are reproduced by `mkInstance` below. -/
structure ServiceInstance where
  server : String
  instance_id : Int
  host : String
  port : Int
  last_heartbeat : ℚ
  status : String
  metadata : Metadata
  performance_metrics : Metrics
  security_status : String
  power_level : ℚ
deriving DecidableEq, Repr

/-- Default `performance_metrics` of a fresh `ServiceInstance`. -/
def defaultMetrics : Metrics :=
  [("cpu", 0), ("memory", 0), ("network", 0), ("requests_per_second", 0)]

/-- Model of the `ServiceRegistration` request body (`server`, `instance_id`, `port`,
optional `metadata`; note the model has no `host` field). -/
structure ServiceRegistration where
  server : String
  instance_id : Int
  port : Int
  metadata : Metadata
deriving DecidableEq, Repr

/-- The `ServiceInstance(...)` construction performed by
`DNSServer.register_service`.  The pydantic default
`last_heartbeat: float = time.time()` is evaluated ONCE, when the class body
runs at module import; that captured value is the `classInit` parameter, NOT
the time of the registration call.  All other defaults are the literal class
defaults (`host="localhost"`, `status="healthy"`, zeroed metrics,
`security_status="secure"`, `power_level=100.0`). -/
def mkInstance (classInit : ℚ) (r : ServiceRegistration) : ServiceInstance :=
  { server := r.server
    instance_id := r.instance_id
    host := "localhost"
    port := r.port
    last_heartbeat := classInit
    status := "healthy"
    metadata := r.metadata
    performance_metrics := defaultMetrics
    security_status := "secure"
    power_level := 100 }

/-- Model of `SecurityThreat` (pydantic model); `datetime` timestamps as rationals. -/
structure SecurityThreat where
  threat_level : String
  description : String
  timestamp : ℚ
  affected_services : List String
deriving DecidableEq, Repr

/-- State built by `NetworkDefense.__init__`. -/
structure NetworkDefense where
  threat_levels : List String
  active_threats : List SecurityThreat
  blocked_ips : List String
  defense_protocols : List (String × Bool)
deriving DecidableEq, Repr

/-- The initial `NetworkDefense` state built in `__init__`. -/
def NetworkDefense.init : NetworkDefense :=
  { threat_levels := ["low", "moderate", "high", "critical"]
    active_threats := []
    blocked_ips := []
    defense_protocols :=
      [("lockdown", false), ("enhanced_monitoring", false), ("auto_recovery", true)] }

/-- Model of `self.services : Dict[str, List[ServiceInstance]]`. -/
abbrev Registry := List (String × List ServiceInstance)

/-- Model of `PowerManagement.critical_services`. -/
def critical_services : List String := ["main", "llm", "functional"]

/-- Model of `sum(len(instances) for instances in services.values())`. -/
def totalInstances (services : Registry) : Nat :=
  (services.map (fun p => p.2.length)).sum

/-- Model of `power_per_instance = self.total_power / total_instances if total_instances > 0 else 0`
with `total_power = 100.0`. -/
def powerPerInstance (services : Registry) : ℚ :=
  if 0 < totalInstances services then 100 / (totalInstances services : ℚ) else 0

/-- Per-type multiplier: critical services get 50% more power (`1.5`). -/
def multiplier (service_type : String) : ℚ :=
  if service_type ∈ critical_services then 3/2 else 1

/-- Model of `PowerManagement.allocate_power`: returns the rebuilt
`power_distribution` dict and the registry with every instance's
`power_level` overwritten with `power_per_instance * multiplier`. -/
def allocate_power (services : Registry) : List (String × ℚ) × Registry :=
  let ppi := powerPerInstance services
  ( services.map (fun p => (p.1, (p.2.length : ℚ) * ppi * multiplier p.1))
  , services.map (fun p =>
      (p.1, p.2.map (fun i => { i with power_level := ppi * multiplier p.1 }))) )

/-- The mutable `DNSServer` state relevant to the registry API. -/
structure DNSServer where
  services : Registry
  defense_system : NetworkDefense
  power_distribution : List (String × ℚ)
deriving DecidableEq, Repr

/-- Fresh `DNSServer.__init__` state. -/
def DNSServer.init : DNSServer :=
  { services := [], defense_system := NetworkDefense.init, power_distribution := [] }

/-- The replace-in-place scan of `register_service`: returns the bucket with
the first instance of equal `instance_id` replaced by `inst`, or `none` when
no instance has that id. -/
def replaceById : List ServiceInstance → ServiceInstance → Option (List ServiceInstance)
  | [], _ => none
  | e :: rest, inst =>
      if e.instance_id = inst.instance_id then some (inst :: rest)
      else (replaceById rest inst).map (fun r => e :: r)

/-- Model of `DNSServer.register_service`.  Builds a fresh `ServiceInstance` (see
`mkInstance` for the `classInit` heartbeat default), creates the type's
bucket when absent, replaces an existing instance with the same
`instance_id` in place (returning WITHOUT reallocating power), otherwise
appends the instance and reallocates power across all services. -/
def register_service (classInit : ℚ) (s : DNSServer) (r : ServiceRegistration) :
    DNSServer :=
  let inst := mkInstance classInit r
  let bucket := (dictGet s.services r.server).getD []
  match replaceById bucket inst with
  | some newBucket => { s with services := dictSet s.services r.server newBucket }
  | none =>
      let services1 := dictSet s.services r.server (bucket ++ [inst])
      let alloc := allocate_power services1
      { s with services := alloc.2, power_distribution := alloc.1 }

/-- Errors raised by `get_service` (`HTTPException` status codes). -/
inductive GetServiceError
  | notFound
  | unavailable
deriving DecidableEq, Repr

/-- HTTP status code of each `get_service` failure. -/
def GetServiceError.statusCode : GetServiceError → Nat
  | .notFound => 404
  | .unavailable => 503

/-- The health filter of `get_service`: `status == "healthy"`,
`time.time() - last_heartbeat < 30`, `power_level > 20.0`. -/
def isSelectable (now : ℚ) (i : ServiceInstance) : Bool :=
  i.status == "healthy" && decide (now - i.last_heartbeat < 30)
    && decide (20 < i.power_level)

/-- Model of `healthy_instances = [instance for instance in self.services[service_type] if ...]`. -/
def healthyFilter (insts : List ServiceInstance) (now : ℚ) : List ServiceInstance :=
  insts.filter (isSelectable now)

/-- The requirement predicate: `all(instance.metadata.get(key) == value for
key, value in requirements.items())`. -/
def matchesRequirements (requirements : Metadata) (i : ServiceInstance) : Bool :=
  requirements.all (fun kv => dictGet i.metadata kv.1 == some kv.2)

/-- The selection score:
`power_level * 0.7 + (1.0 / (time.time() - last_heartbeat + 0.0001)) * 0.3`. -/
def score (now : ℚ) (i : ServiceInstance) : ℚ :=
  i.power_level * (7/10) + (1 / (now - i.last_heartbeat + 1/10000)) * (3/10)

/-- Python's `max(x :: l, key=f)`: folds left keeping the current best and
replacing it only on a strictly greater key, hence returning the FIRST
maximal element. -/
def pyMax {α : Type} (f : α → ℚ) (x : α) : List α → α
  | [] => x
  | y :: ys => pyMax f (if f x < f y then y else x) ys

/-- The requirement-narrowing step of `get_service`: with falsy (empty)
requirements the healthy candidates pass through; otherwise narrow to the
superset-matching candidates, falling back to the unnarrowed healthy set
when the narrowing empties it (the source's documented lenient fallback). -/
def selectFrom (requirements : Metadata) (healthy : List ServiceInstance) :
    List ServiceInstance :=
  if requirements.isEmpty then healthy
  else if (healthy.filter (matchesRequirements requirements)).isEmpty then healthy
  else healthy.filter (matchesRequirements requirements)

/-- The final selection: Python `max` by `score` over the surviving
candidates (the empty case is unreachable in `get_service` and kept as the
503 error for totality). -/
def pickBest (now : ℚ) (candidates : List ServiceInstance) :
    Except GetServiceError ServiceInstance :=
  match candidates with
  | [] => .error .unavailable
  | f :: fs => .ok (pyMax (score now) f fs)

/-- Model of `DNSServer.get_service`: 404 when the service type is absent (or its
bucket empty — unreachable in the source, which never deletes a bucket),
503 when no instance passes the health filter, lenient requirement
narrowing (`selectFrom`), and Python `max` selection by `score`. -/
def get_service (services : Registry) (service_type : String)
    (requirements : Metadata) (now : ℚ) : Except GetServiceError ServiceInstance :=
  match dictGet services service_type with
  | none => .error .notFound
  | some insts =>
      if insts.isEmpty then .error .notFound
      else
        match healthyFilter insts now with
        | [] => .error .unavailable
        | h :: hs => pickBest now (selectFrom requirements (h :: hs))

/-- The raw, unfiltered read of a type's instances (`GetInstances` in the
spec; served by `GET /servers/status` in the source). -/
def get_instances (services : Registry) (service_type : String) :
    List ServiceInstance :=
  (dictGet services service_type).getD []

/-- The per-instance mutation of `update_heartbeat`: refresh
`last_heartbeat`, force `status = "healthy"`, and (when `metrics` is truthy,
i.e. a non-empty dict) merge the metrics via `dict.update`. -/
def hbInstance (now : ℚ) (metrics : Option Metrics) (i : ServiceInstance) :
    ServiceInstance :=
  { i with
    last_heartbeat := now
    status := "healthy"
    performance_metrics :=
      match metrics with
      | some m => if m.isEmpty then i.performance_metrics
                  else dictUpdate i.performance_metrics m
      | none => i.performance_metrics }

/-- The scan of `update_heartbeat` over a bucket: update the first instance
with the given id and stop; `none` when no instance matches. -/
def hbList (now : ℚ) (metrics : Option Metrics) (iid : Int) :
    List ServiceInstance → Option (List ServiceInstance)
  | [] => none
  | i :: rest =>
      if i.instance_id = iid then some (hbInstance now metrics i :: rest)
      else (hbList now metrics iid rest).map (fun r => i :: r)

/-- Model of `DNSServer.update_heartbeat`: `true` and the updated state when the
`(service_type, instance_id)` pair is registered, otherwise `false` with the
state unchanged. -/
def update_heartbeat (s : DNSServer) (service_type : String) (iid : Int)
    (metrics : Option Metrics) (now : ℚ) : DNSServer × Bool :=
  match dictGet s.services service_type with
  | none => (s, false)
  | some insts =>
      match hbList now metrics iid insts with
      | none => (s, false)
      | some insts' =>
          ({ s with services := dictSet s.services service_type insts' }, true)

/-- The `POST /heartbeat/...` endpoint (path parameters service type and
instance id): surfaces a
`false` from `update_heartbeat` as a 404 `HTTPException`. -/
def heartbeat_endpoint (s : DNSServer) (service_type : String) (iid : Int)
    (metrics : Option Metrics) (now : ℚ) : Except Nat DNSServer :=
  let r := update_heartbeat s service_type iid metrics now
  if r.2 then .ok r.1 else .error 404

/-- Outcome of the recovery probe `GET http://host:port/health` issued by the
health-check loop: a received status code, or a network failure / timeout
(the `except: pass`). -/
inductive ProbeResult
  | ok (code : Nat)
  | failed
deriving DecidableEq, Repr

/-- Phase 1 of a health-check tick on one instance: a heartbeat older than 30
seconds marks the instance unhealthy and decays its power by `0.8`. -/
def staleCheck (now : ℚ) (i : ServiceInstance) : ServiceInstance :=
  if 30 < now - i.last_heartbeat then
    { i with status := "unhealthy", power_level := i.power_level * (4/5) }
  else i

/-- Phase 2: the threat-assessment hook (stochastic in the source, its
outcome taken here as a parameter); a `high`/`critical` threat marks the
instance compromised. -/
def securityCheck (threat : Option SecurityThreat) (i : ServiceInstance) :
    ServiceInstance :=
  match threat with
  | some th =>
      if th.threat_level ∈ (["high", "critical"] : List String) then
        { i with security_status := "compromised" }
      else i
  | none => i

/-- Phase 3: for an (already or newly) unhealthy instance the loop probes
`/health`; ONLY a literal `status_code == 200` restores health, refreshes the
heartbeat to the tick time, and boosts power by `1.2` capped at `100`. -/
def recoveryCheck (now : ℚ) (probe : ProbeResult) (i : ServiceInstance) :
    ServiceInstance :=
  if i.status = "unhealthy" then
    if probe = .ok 200 then
      { i with
        status := "healthy"
        last_heartbeat := now
        power_level := min 100 (i.power_level * (6/5)) }
    else i
  else i

/-- One `health_check_loop` tick restricted to a single instance: stale
check, then security check, then recovery attempt, exactly in source order
(`current_time` is read once per tick). -/
def monitorInstanceStep (now : ℚ) (threat : Option SecurityThreat)
    (probe : ProbeResult) (i : ServiceInstance) : ServiceInstance :=
  recoveryCheck now probe (securityCheck threat (staleCheck now i))

/-- Model of the `POST /defense/activate/...` endpoint: 404 when the name is not a key of
`defense_protocols`, otherwise set that flag to `True`. -/
def activate_defense_protocol (d : NetworkDefense) (protocol : String) :
    Except Nat NetworkDefense :=
  match dictGet d.defense_protocols protocol with
  | none => .error 404
  | some _ =>
      .ok { d with defense_protocols := dictSet d.defense_protocols protocol true }

/-- Sum of `power_level` over all instances of non-critical service types. -/
def nonCriticalPowerSum (services : Registry) : ℚ :=
  ((services.filter (fun p => decide (p.1 ∉ critical_services))).map
    (fun p => (p.2.map ServiceInstance.power_level).sum)).sum

/-- Number of instances of non-critical service types. -/
def nonCriticalCount (services : Registry) : Nat :=
  ((services.filter (fun p => decide (p.1 ∉ critical_services))).map
    (fun p => p.2.length)).sum

/-! ## Dictionary lemmas -/

theorem dictKeys_nil {β : Type} : dictKeys ([] : List (String × β)) = [] := rfl

theorem dictKeys_cons {β : Type} (kv : String × β) (rest : List (String × β)) :
    dictKeys (kv :: rest) = kv.1 :: dictKeys rest := rfl

theorem dictGet_dictSet_self {β : Type} (d : List (String × β)) (k : String) (v : β) :
    dictGet (dictSet d k v) k = some v := by
  induction d with
  | nil => simp [dictGet, dictSet]
  | cons kv rest ih =>
      obtain ⟨k0, v0⟩ := kv
      by_cases h : k0 = k
      · simp [dictSet, dictGet, h]
      · simp [dictSet, dictGet, h, ih]

theorem dictGet_dictSet_ne {β : Type} (d : List (String × β)) (k k' : String) (v : β)
    (h : k' ≠ k) : dictGet (dictSet d k v) k' = dictGet d k' := by
  induction d with
  | nil => simp [dictGet, dictSet, Ne.symm h]
  | cons kv rest ih =>
      obtain ⟨k0, v0⟩ := kv
      by_cases hk : k0 = k
      · subst hk
        simp [dictSet, dictGet, Ne.symm h]
      · by_cases hk' : k0 = k'
        · simp [dictSet, dictGet, hk, hk', h]
        · simp [dictSet, dictGet, hk, hk', ih]

theorem dictGet_eq_none_iff {β : Type} (d : List (String × β)) (k : String) :
    dictGet d k = none ↔ k ∉ dictKeys d := by
  induction d with
  | nil => simp [dictGet, dictKeys_nil]
  | cons kv rest ih =>
      obtain ⟨k0, v0⟩ := kv
      by_cases h : k0 = k
      · simp [dictGet, dictKeys_cons, h]
      · simp [dictGet, dictKeys_cons, h, ih, Ne.symm h]

theorem dictKeys_dictSet_of_mem {β : Type} (d : List (String × β)) (k : String) (v : β)
    (h : k ∈ dictKeys d) : dictKeys (dictSet d k v) = dictKeys d := by
  induction d with
  | nil => simp [dictKeys_nil] at h
  | cons kv rest ih =>
      obtain ⟨k0, v0⟩ := kv
      by_cases hk : k0 = k
      · simp [dictSet, dictKeys_cons, hk]
      · have hmem : k ∈ dictKeys rest := by
          rcases (by simpa [dictKeys_cons] using h : k = k0 ∨ k ∈ dictKeys rest) with h' | h'
          · exact absurd h'.symm hk
          · exact h'
        simp [dictSet, dictKeys_cons, hk, ih hmem]

theorem dictGet_dictUpdate {β : Type} (m : List (String × β)) (d : List (String × β))
    (hnodup : (dictKeys m).Nodup) (k : String) :
    dictGet (dictUpdate d m) k =
      match dictGet m k with
      | some v => some v
      | none => dictGet d k := by
  induction m generalizing d with
  | nil => simp [dictUpdate, dictGet]
  | cons kv rest ih =>
      obtain ⟨k0, v0⟩ := kv
      rw [dictKeys_cons, List.nodup_cons] at hnodup
      have hstep : dictUpdate d ((k0, v0) :: rest) = dictUpdate (dictSet d k0 v0) rest := by
        simp [dictUpdate]
      rw [hstep, ih (dictSet d k0 v0) hnodup.2]
      by_cases h : k0 = k
      · subst h
        have : dictGet rest k0 = none := (dictGet_eq_none_iff rest k0).mpr hnodup.1
        simp [this, dictGet, dictGet_dictSet_self]
      · simp [dictGet, h, dictGet_dictSet_ne d k0 k v0 (Ne.symm h)]

/-! ## Python `max` lemmas -/

/-- The function `pyMax` is Python's `max`: it returns a maximal element, and the first
one among ties — every candidate strictly before the returned one in the
list has a strictly smaller key. -/
theorem pyMax_spec {α : Type} (f : α → ℚ) (x : α) (l : List α) :
    ∃ pre post, x :: l = pre ++ pyMax f x l :: post ∧
      (∀ z ∈ pre, f z < f (pyMax f x l)) ∧
      (∀ z ∈ x :: l, f z ≤ f (pyMax f x l)) := by
  induction l generalizing x with
  | nil =>
      refine ⟨[], [], by simp [pyMax], by simp, ?_⟩
      intro z hz
      rw [show pyMax f x [] = x from rfl]
      rcases List.mem_cons.mp hz with rfl | hz
      · exact le_refl _
      · exact absurd hz (List.not_mem_nil z)
  | cons y ys ih =>
      rw [pyMax]
      by_cases h : f x < f y
      · rw [if_pos h]
        obtain ⟨pre, post, heq, hpre, hall⟩ := ih y
        refine ⟨x :: pre, post, by rw [List.cons_append, ← heq], ?_, ?_⟩
        · intro z hz
          rcases List.mem_cons.mp hz with rfl | hz
          · exact lt_of_lt_of_le h (hall y (by simp))
          · exact hpre z hz
        · intro z hz
          rcases List.mem_cons.mp hz with rfl | hz
          · exact le_of_lt (lt_of_lt_of_le h (hall y (by simp)))
          · exact hall z hz
      · rw [if_neg h]
        obtain ⟨pre, post, heq, hpre, hall⟩ := ih x
        cases pre with
        | nil =>
            have hx : x = pyMax f x ys := by
              simpa using congrArg (fun t => t.head?) heq
            refine ⟨[], y :: ys, by simp [← hx], by simp, ?_⟩
            intro z hz
            rw [← hx]
            rcases List.mem_cons.mp hz with rfl | hz
            · exact le_refl _
            · rcases List.mem_cons.mp hz with rfl | hz
              · exact le_of_not_lt h
              · exact le_of_le_of_eq (hall z (List.mem_cons_of_mem x hz)) (congrArg f hx.symm)
        | cons a pre' =>
            have ha : x = a := by
              simpa using congrArg (fun t => t.head?) heq
            have hys : ys = pre' ++ pyMax f x ys :: post := by
              simpa using congrArg List.tail heq
            have hxlt : f x < f (pyMax f x ys) := by
              have := hpre a (by simp)
              rwa [← ha] at this
            refine ⟨x :: y :: pre', post, congrArg (fun t => x :: y :: t) hys, ?_, ?_⟩
            · intro z hz
              rcases List.mem_cons.mp hz with rfl | hz
              · exact hxlt
              · rcases List.mem_cons.mp hz with rfl | hz
                · exact lt_of_le_of_lt (le_of_not_lt h) hxlt
                · exact hpre z (List.mem_cons_of_mem a hz)
            · intro z hz
              rcases List.mem_cons.mp hz with rfl | hz
              · exact hall z (by simp)
              · rcases List.mem_cons.mp hz with rfl | hz
                · exact le_of_lt (lt_of_le_of_lt (le_of_not_lt h) hxlt)
                · exact hall z (List.mem_cons_of_mem x hz)

theorem pyMax_mem {α : Type} (f : α → ℚ) (x : α) (l : List α) :
    pyMax f x l ∈ x :: l := by
  obtain ⟨pre, post, heq, -, -⟩ := pyMax_spec f x l
  rw [heq]
  simp

theorem pyMax_le {α : Type} (f : α → ℚ) (x : α) (l : List α) :
    ∀ z ∈ x :: l, f z ≤ f (pyMax f x l) :=
  (pyMax_spec f x l).choose_spec.choose_spec.2.2

/-! ## `get_service` decomposition lemmas -/

theorem selectFrom_subset (req : Metadata) (healthy : List ServiceInstance) :
    ∀ i ∈ selectFrom req healthy, i ∈ healthy := by
  intro i hi
  unfold selectFrom at hi
  by_cases hreq : req.isEmpty = true
  · simpa [hreq] using hi
  · rw [if_neg hreq] at hi
    by_cases hm : (healthy.filter (matchesRequirements req)).isEmpty = true
    · simpa [hm] using hi
    · rw [if_neg hm] at hi
      exact List.mem_of_mem_filter hi

theorem selectFrom_ne_nil (req : Metadata) (h : ServiceInstance)
    (hs : List ServiceInstance) : selectFrom req (h :: hs) ≠ [] := by
  unfold selectFrom
  by_cases hreq : req.isEmpty = true
  · simp [hreq]
  · rw [if_neg hreq]
    by_cases hm : ((h :: hs).filter (matchesRequirements req)).isEmpty = true
    · simp [hm]
    · rw [if_neg hm]
      intro hnil
      rw [hnil] at hm
      exact hm rfl

/-- A successful `get_service` is exactly the Python `max` over the
`selectFrom` narrowing of the nonempty healthy candidate list. -/
theorem get_service_eq_ok (services : Registry) (t : String) (req : Metadata)
    (now : ℚ) (insts : List ServiceInstance) (h : ServiceInstance)
    (hs : List ServiceInstance) (hd : dictGet services t = some insts)
    (hh : healthyFilter insts now = h :: hs) :
    ∃ f fs, selectFrom req (h :: hs) = f :: fs ∧
      get_service services t req now = .ok (pyMax (score now) f fs) := by
  have hne : insts ≠ [] := by
    intro hnil
    rw [hnil] at hh
    simp [healthyFilter] at hh
  cases hsel : selectFrom req (h :: hs) with
  | nil => exact absurd hsel (selectFrom_ne_nil req h hs)
  | cons f fs =>
      refine ⟨f, fs, rfl, ?_⟩
      unfold get_service
      rw [hd]
      simp only [List.isEmpty_eq_true]
      rw [if_neg hne, hh]
      show pickBest now (selectFrom req (h :: hs)) = _
      rw [hsel]
      rfl

theorem get_service_err_of_notFound (services : Registry) (t : String)
    (req : Metadata) (now : ℚ) (hd : dictGet services t = none) :
    get_service services t req now = .error .notFound := by
  unfold get_service
  rw [hd]

theorem get_service_err_of_unavailable (services : Registry) (t : String)
    (req : Metadata) (now : ℚ) (insts : List ServiceInstance)
    (hd : dictGet services t = some insts) (hne : insts ≠ [])
    (hh : healthyFilter insts now = []) :
    get_service services t req now = .error .unavailable := by
  unfold get_service
  rw [hd]
  simp only [List.isEmpty_eq_true]
  rw [if_neg hne, hh]

/-! ## `update_heartbeat` scan lemmas -/

theorem hbList_eq_none_iff (now : ℚ) (m : Option Metrics) (iid : Int)
    (l : List ServiceInstance) :
    hbList now m iid l = none ↔ ∀ i ∈ l, i.instance_id ≠ iid := by
  induction l with
  | nil => simp [hbList]
  | cons i rest ih =>
      by_cases h : i.instance_id = iid
      · simp [hbList, h]
      · simp [hbList, h, ih]

theorem hbList_of_split (now : ℚ) (m : Option Metrics) (iid : Int)
    (pre post : List ServiceInstance) (i : ServiceInstance)
    (hpre : ∀ j ∈ pre, j.instance_id ≠ iid) (hi : i.instance_id = iid) :
    hbList now m iid (pre ++ i :: post) = some (pre ++ hbInstance now m i :: post) := by
  induction pre with
  | nil => simp [hbList, hi]
  | cons j pres ih =>
      have hj : j.instance_id ≠ iid := hpre j (by simp)
      have hrest : ∀ j' ∈ pres, j'.instance_id ≠ iid :=
        fun j' hj' => hpre j' (List.mem_cons_of_mem j hj')
      simp [hbList, hj, ih hrest]

theorem hbList_eq_some (now : ℚ) (m : Option Metrics) (iid : Int)
    (l out : List ServiceInstance) (h : hbList now m iid l = some out) :
    ∃ pre i post, l = pre ++ i :: post ∧ (∀ j ∈ pre, j.instance_id ≠ iid) ∧
      i.instance_id = iid ∧ out = pre ++ hbInstance now m i :: post := by
  induction l generalizing out with
  | nil => simp [hbList] at h
  | cons i rest ih =>
      by_cases hid : i.instance_id = iid
      · refine ⟨[], i, rest, by simp, by simp, hid, ?_⟩
        simp only [hbList, if_pos hid, Option.some.injEq] at h
        simpa using h.symm
      · simp only [hbList, if_neg hid] at h
        cases hrec : hbList now m iid rest with
        | none => rw [hrec] at h; simp at h
        | some out' =>
            rw [hrec] at h
            simp only [Option.map_some', Option.some.injEq] at h
            obtain ⟨pre, j, post, hl, hpre, hj, hout⟩ := ih out' hrec
            refine ⟨i :: pre, j, post, by simp [hl], ?_, hj, by simp [← h, hout]⟩
            intro j' hj'
            rcases List.mem_cons.mp hj' with rfl | hj'
            · exact hid
            · exact hpre j' hj'

/-! ## Allocator sum lemmas -/

theorem powerSum_const (c : ℚ) (l : List ServiceInstance) :
    ((l.map (fun i => { i with power_level := c })).map ServiceInstance.power_level).sum
      = (l.length : ℚ) * c := by
  induction l with
  | nil => simp
  | cons a l ihl =>
      simp only [List.map_cons, List.sum_cons, ihl, List.length_cons]
      push_cast
      ring

theorem nonCriticalPowerSum_setconst (c : ℚ) (l : Registry) :
    nonCriticalPowerSum (l.map (fun p =>
        (p.1, p.2.map (fun i => { i with power_level := c * multiplier p.1 })))) =
      c * (nonCriticalCount (l.map (fun p =>
        (p.1, p.2.map (fun i => { i with power_level := c * multiplier p.1 })))) : ℚ) := by
  induction l with
  | nil => simp [nonCriticalPowerSum, nonCriticalCount]
  | cons p rest ih =>
      obtain ⟨t0, insts0⟩ := p
      by_cases hc : t0 ∈ critical_services
      · simp only [nonCriticalPowerSum, nonCriticalCount] at ih ⊢
        simp only [List.map_cons, List.filter_cons]
        rw [if_neg (by simp [hc])]
        exact ih
      · have hmul : multiplier t0 = 1 := by simp [multiplier, hc]
        unfold nonCriticalPowerSum nonCriticalCount at ih ⊢
        simp only [List.map_cons, List.filter_cons] at ih ⊢
        simp only [hc, not_false_iff, decide_eq_true_eq]
        rw [if_pos (by simpa using hc)]
        simp only [List.map_cons, List.sum_cons, powerSum_const, hmul, List.length_map, ih]
        push_cast
        ring

/-- Membership in the health filter, unpacked into the three source
conditions. -/
theorem mem_healthyFilter_iff (insts : List ServiceInstance) (now : ℚ)
    (i : ServiceInstance) :
    i ∈ healthyFilter insts now ↔
      i ∈ insts ∧ i.status = "healthy" ∧ now - i.last_heartbeat < 30 ∧
        20 < i.power_level := by
  simp [healthyFilter, isSelectable, List.mem_filter, and_assoc]

/-! ## Claims -/

/-- Concrete registrations for the C1 exhibit: the registry process is
imported at time 0 (the moment the pydantic `last_heartbeat` default
`time.time()` is evaluated); the same `("llm", 1)` pair is registered twice,
at wall-clock times 40 and 50, with different metadata.  Note that
`register_service` never reads the clock — the registration times cannot
influence the stored state at all. -/
def c1RegA : ServiceRegistration := ⟨"llm", 1, 9101, [("v", "1")]⟩

def c1RegB : ServiceRegistration := ⟨"llm", 1, 9101, [("v", "2")]⟩

def c1S2 : DNSServer :=
  register_service 0 (register_service 0 DNSServer.init c1RegA) c1RegB

/-- C1: the upsert part of the claim holds — registering `("llm", 1)` twice
leaves exactly one stored instance, carrying the latest metadata, with
`status = "healthy"` — but the claim's "lastHeartbeat set to the
registration time" FAILS: the stored `last_heartbeat` is `0`, the
module-import time at which the pydantic class default `time.time()` was
evaluated, not the registration times (40, 50); consequently a
`get_service` issued right after the second registration (at time 50, or
even 40) already sees the instance as stale and returns 503. -/
theorem claim_C1_register_upsert_heartbeat_bug :
    dictGet c1S2.services "llm" = some [mkInstance 0 c1RegB] ∧
    (mkInstance 0 c1RegB).metadata = [("v", "2")] ∧
    (mkInstance 0 c1RegB).status = "healthy" ∧
    (mkInstance 0 c1RegB).last_heartbeat = 0 ∧
    ((0 : ℚ) ≠ 40 ∧ (0 : ℚ) ≠ 50) ∧
    get_service c1S2.services "llm" [] 40 = .error .unavailable := by
  have hserv : c1S2.services = [("llm", [mkInstance 0 c1RegB])] := rfl
  refine ⟨by rw [hserv]; rfl, rfl, rfl, rfl, by norm_num, ?_⟩
  rw [hserv]
  norm_num [get_service, healthyFilter, isSelectable, dictGet, mkInstance, c1RegB]

/-- C2: `get_service` fails 404 on an unknown service type; on a known,
nonempty type it fails 503 exactly when no instance passes the health
filter; any returned instance satisfies `status = "healthy"`,
`now - last_heartbeat < 30` and `power_level > 20`; and a stale instance
(heartbeat age ≥ 30) is never returned although it stays visible in the raw
`get_instances` read. -/
theorem claim_C2_get_service_filter (services : Registry) (t : String)
    (req : Metadata) (now : ℚ) :
    (dictGet services t = none →
      get_service services t req now = .error .notFound ∧
      GetServiceError.notFound.statusCode = 404) ∧
    (∀ insts, dictGet services t = some insts → insts ≠ [] →
      (healthyFilter insts now = [] →
        get_service services t req now = .error .unavailable ∧
        GetServiceError.unavailable.statusCode = 503) ∧
      (∀ r, get_service services t req now = .ok r →
        r ∈ insts ∧ r.status = "healthy" ∧ now - r.last_heartbeat < 30 ∧
          20 < r.power_level) ∧
      (∀ i ∈ insts, 30 ≤ now - i.last_heartbeat →
        i ∈ get_instances services t ∧
        ∀ r, get_service services t req now = .ok r → r ≠ i)) := by
  constructor
  · intro hd
    exact ⟨get_service_err_of_notFound services t req now hd, rfl⟩
  · intro insts hd hne
    have hok : ∀ r, get_service services t req now = .ok r →
        r ∈ healthyFilter insts now := by
      intro r hr
      cases hh : healthyFilter insts now with
      | nil =>
          rw [get_service_err_of_unavailable services t req now insts hd hne hh] at hr
          exact absurd hr (by simp)
      | cons h hs =>
          obtain ⟨f, fs, hsel, hgs⟩ := get_service_eq_ok services t req now insts h hs hd hh
          rw [hgs] at hr
          have : r = pyMax (score now) f fs := by
            simpa using hr.symm
          have hmem := pyMax_mem (score now) f fs
          rw [← hsel] at hmem
          rw [this]
          exact selectFrom_subset req (h :: hs) _ hmem
    refine ⟨?_, ?_, ?_⟩
    · intro hh
      exact ⟨get_service_err_of_unavailable services t req now insts hd hne hh, rfl⟩
    · intro r hr
      exact (mem_healthyFilter_iff insts now r).mp (hok r hr)
    · intro i hi hstale
      constructor
      · simp [get_instances, hd, hi]
      · intro r hr
        obtain ⟨-, -, hfresh, -⟩ := (mem_healthyFilter_iff insts now r).mp (hok r hr)
        intro hri
        rw [hri] at hfresh
        linarith

/-- Concrete stale instance for the C2 witness: heartbeat at time 0, looked
up at time 40. -/
def c2Stale : ServiceInstance :=
  ⟨"svc", 3, "localhost", 9002, 0, "healthy", [], defaultMetrics, "secure", 90⟩

/-- C2 witness: the claim instantiated at concrete inputs — unknown type
404, known type with only a stale instance 503, with the stale instance
still present in the raw read. -/
theorem claim_C2_witness :
    get_service [] "llm" [] 100 = .error .notFound ∧
    get_service [("svc", [c2Stale])] "svc" [] 40 = .error .unavailable ∧
    c2Stale ∈ get_instances [("svc", [c2Stale])] "svc" := by
  have h1 := (claim_C2_get_service_filter [] "llm" [] 100).1 rfl
  have h2 := (claim_C2_get_service_filter [("svc", [c2Stale])] "svc" [] 40).2
    [c2Stale] rfl (by simp)
  have hh : healthyFilter [c2Stale] 40 = [] := by
    norm_num [healthyFilter, isSelectable, c2Stale]
  refine ⟨h1.1, (h2.1 hh).1, (h2.2.2 c2Stale (by simp) (by norm_num [c2Stale])).1⟩

/-- C3: over a nonempty healthy candidate list, the no-requirements
`get_service` returns a candidate whose score is maximal, and which is the
FIRST such candidate in registration order (everything before it scores
strictly lower). -/
theorem claim_C3_selection_scoring (services : Registry) (t : String) (now : ℚ)
    (insts : List ServiceInstance) (h : ServiceInstance) (hs : List ServiceInstance)
    (hd : dictGet services t = some insts)
    (hh : healthyFilter insts now = h :: hs) :
    ∃ r, get_service services t [] now = .ok r ∧ r ∈ h :: hs ∧
      (∀ j ∈ h :: hs, score now j ≤ score now r) ∧
      ∃ pre post, h :: hs = pre ++ r :: post ∧
        ∀ j ∈ pre, score now j < score now r := by
  obtain ⟨f, fs, hsel, hgs⟩ := get_service_eq_ok services t [] now insts h hs hd hh
  have hself : selectFrom [] (h :: hs) = h :: hs := by simp [selectFrom]
  rw [hself] at hsel
  obtain ⟨rfl, rfl⟩ : h = f ∧ hs = fs := by
    exact ⟨by injection hsel, by injection hsel⟩
  obtain ⟨pre, post, heq, hpre, hall⟩ := pyMax_spec (score now) h hs
  exact ⟨pyMax (score now) h hs, hgs, pyMax_mem (score now) h hs, hall,
    pre, post, heq, hpre⟩

/-- The two instances of the C3 witness: equal heartbeat recency (heartbeat
at 99, lookup at 100), power levels 10 and 90, registered in that order. -/
def c3i10 : ServiceInstance :=
  ⟨"svc", 1, "localhost", 9000, 99, "healthy", [], defaultMetrics, "secure", 10⟩

def c3i90 : ServiceInstance :=
  ⟨"svc", 2, "localhost", 9001, 99, "healthy", [], defaultMetrics, "secure", 90⟩

/-- C3 witness: the theorem instantiated on the registry holding the
power-10 and power-90 instances (the power-10 instance does not even pass
the `power_level > 20` filter), plus the concrete evaluation showing the
call deterministically returns the 90-power instance. -/
theorem claim_C3_witness :
    (∃ r, get_service [("svc", [c3i10, c3i90])] "svc" [] 100 = .ok r ∧
      r ∈ [c3i90] ∧ (∀ j ∈ [c3i90], score 100 j ≤ score 100 r) ∧
      ∃ pre post, [c3i90] = pre ++ r :: post ∧
        ∀ j ∈ pre, score 100 j < score 100 r) ∧
    get_service [("svc", [c3i10, c3i90])] "svc" [] 100 = .ok c3i90 := by
  constructor
  · exact claim_C3_selection_scoring [("svc", [c3i10, c3i90])] "svc" 100
      [c3i10, c3i90] c3i90 [] rfl
      (by norm_num [healthyFilter, isSelectable, c3i10, c3i90])
  · norm_num [get_service, healthyFilter, isSelectable, dictGet, selectFrom,
      pickBest, pyMax, c3i10, c3i90]

/-- C4: with a non-empty requirements map, if some healthy candidate
matches every requirement the selection is restricted to exactly the
matching candidates; if none matches, the requirements are ignored — the
call coincides with the requirement-free call and still succeeds on the
full healthy candidate set. -/
theorem claim_C4_requirements_fallback (services : Registry) (t : String)
    (now : ℚ) (insts : List ServiceInstance) (req : Metadata)
    (h : ServiceInstance) (hs : List ServiceInstance)
    (hd : dictGet services t = some insts) (hreq : req ≠ [])
    (hh : healthyFilter insts now = h :: hs) :
    (∀ m ms, (h :: hs).filter (matchesRequirements req) = m :: ms →
      ∃ r, get_service services t req now = .ok r ∧ r ∈ m :: ms ∧
        (∀ j, j ∈ m :: ms → matchesRequirements req j = true) ∧
        ∀ j ∈ m :: ms, score now j ≤ score now r) ∧
    ((h :: hs).filter (matchesRequirements req) = [] →
      get_service services t req now = get_service services t [] now ∧
      ∃ r, get_service services t req now = .ok r ∧ r ∈ h :: hs) := by
  have hreqne : req.isEmpty = false := by
    cases req with
    | nil => exact absurd rfl hreq
    | cons a l => rfl
  constructor
  · intro m ms hm
    obtain ⟨f, fs, hsel, hgs⟩ := get_service_eq_ok services t req now insts h hs hd hh
    have hsel' : selectFrom req (h :: hs) = m :: ms := by
      unfold selectFrom
      rw [hreqne, hm]
      simp
    rw [hsel'] at hsel
    obtain ⟨rfl, rfl⟩ : m = f ∧ ms = fs := ⟨by injection hsel, by injection hsel⟩
    refine ⟨pyMax (score now) m ms, hgs, pyMax_mem (score now) m ms, ?_,
      pyMax_le (score now) m ms⟩
    intro j hj
    rw [← hm] at hj
    exact List.of_mem_filter hj
  · intro hm
    obtain ⟨f, fs, hsel, hgs⟩ := get_service_eq_ok services t req now insts h hs hd hh
    have hsel' : selectFrom req (h :: hs) = h :: hs := by
      unfold selectFrom
      rw [hreqne, hm]
      simp
    rw [hsel'] at hsel
    obtain ⟨rfl, rfl⟩ : h = f ∧ hs = fs := ⟨by injection hsel, by injection hsel⟩
    obtain ⟨f', fs', hsel0, hgs0⟩ := get_service_eq_ok services t [] now insts h hs hd hh
    have hself : selectFrom [] (h :: hs) = h :: hs := by simp [selectFrom]
    rw [hself] at hsel0
    obtain ⟨rfl, rfl⟩ : h = f' ∧ hs = fs' := ⟨by injection hsel0, by injection hsel0⟩
    exact ⟨by rw [hgs, hgs0], pyMax (score now) h hs, hgs,
      pyMax_mem (score now) h hs⟩

/-- Instances for the C4 witness: the `gpu` instance matches the
requirement `{"accel": "gpu"}`, the `cpu` one does not; both are healthy. -/
def c4cpu : ServiceInstance :=
  ⟨"svc", 1, "localhost", 9000, 99, "healthy", [("accel", "cpu")], defaultMetrics,
    "secure", 90⟩

def c4gpu : ServiceInstance :=
  ⟨"svc", 2, "localhost", 9001, 99, "healthy", [("accel", "gpu")], defaultMetrics,
    "secure", 50⟩

/-- C4 witness: with a satisfiable requirement the lower-powered matching
instance is returned (selection restricted to the matching set); with an
unsatisfiable requirement the call equals the requirement-free call and
still succeeds. -/
theorem claim_C4_witness :
    (∃ r, get_service [("svc", [c4cpu, c4gpu])] "svc" [("accel", "gpu")] 100 = .ok r ∧
      r ∈ [c4gpu] ∧ (∀ j, j ∈ [c4gpu] → matchesRequirements [("accel", "gpu")] j = true) ∧
      ∀ j ∈ [c4gpu], score 100 j ≤ score 100 r) ∧
    (get_service [("svc", [c4cpu, c4gpu])] "svc" [("accel", "tpu")] 100 =
      get_service [("svc", [c4cpu, c4gpu])] "svc" [] 100 ∧
      ∃ r, get_service [("svc", [c4cpu, c4gpu])] "svc" [("accel", "tpu")] 100 = .ok r ∧
        r ∈ [c4cpu, c4gpu]) := by
  have hhf : healthyFilter [c4cpu, c4gpu] 100 = [c4cpu, c4gpu] := by
    norm_num [healthyFilter, isSelectable, c4cpu, c4gpu]
  constructor
  · exact (claim_C4_requirements_fallback [("svc", [c4cpu, c4gpu])] "svc" 100
      [c4cpu, c4gpu] [("accel", "gpu")] c4cpu [c4gpu] rfl (by simp) hhf).1
      c4gpu [] (by simp [List.filter, matchesRequirements, dictGet, c4cpu, c4gpu])
  · exact (claim_C4_requirements_fallback [("svc", [c4cpu, c4gpu])] "svc" 100
      [c4cpu, c4gpu] [("accel", "tpu")] c4cpu [c4gpu] rfl (by simp) hhf).2
      (by simp [List.filter, matchesRequirements, dictGet, c4cpu, c4gpu])

/-! Claims C5-C7: the health-monitor tick and the allocator. -/

/-- The phase `securityCheck` never touches `status`, `last_heartbeat` or
`power_level`; it only (possibly) flips `security_status`. -/
theorem securityCheck_fields (threat : Option SecurityThreat) (i : ServiceInstance) :
    (securityCheck threat i).status = i.status ∧
    (securityCheck threat i).last_heartbeat = i.last_heartbeat ∧
    (securityCheck threat i).power_level = i.power_level := by
  cases threat with
  | none => exact ⟨rfl, rfl, rfl⟩
  | some th =>
      unfold securityCheck
      by_cases h : th.threat_level ∈ (["high", "critical"] : List String) <;> simp [h]

theorem staleCheck_of_stale (now : ℚ) (i : ServiceInstance)
    (h : 30 < now - i.last_heartbeat) :
    staleCheck now i =
      { i with status := "unhealthy", power_level := i.power_level * (4/5) } := by
  unfold staleCheck
  rw [if_pos h]

theorem staleCheck_of_fresh (now : ℚ) (i : ServiceInstance)
    (h : ¬ 30 < now - i.last_heartbeat) : staleCheck now i = i := by
  unfold staleCheck
  rw [if_neg h]

/-- A probe outcome other than a literal 200 leaves the instance unchanged. -/
theorem recoveryCheck_of_not200 (now : ℚ) (probe : ProbeResult)
    (j : ServiceInstance) (h : probe ≠ .ok 200) :
    recoveryCheck now probe j = j := by
  unfold recoveryCheck
  by_cases hs : j.status = "unhealthy"
  · rw [if_pos hs, if_neg h]
  · rw [if_neg hs]

/-- Concrete unhealthy instance for the C5 counterexample: status
`unhealthy`, heartbeat at 0, probed at tick time 10 (not stale), power 50. -/
def c5Unh : ServiceInstance :=
  ⟨"svc", 1, "localhost", 9000, 0, "unhealthy", [], defaultMetrics, "secure", 50⟩

/-- C5 counterexample: 201 is a success (2xx) response, yet the tick leaves
the unhealthy instance entirely unchanged — the source recovers only on a
literal `status_code == 200`, so the claim's "any success (2xx) response"
is false at this input. -/
theorem claim_C5_counterexample :
    c5Unh.status = "unhealthy" ∧ (200 ≤ 201 ∧ 201 < 300) ∧
    monitorInstanceStep 10 none (.ok 201) c5Unh = c5Unh ∧
    (monitorInstanceStep 10 none (.ok 201) c5Unh).status ≠ "healthy" := by
  have hstep : monitorInstanceStep 10 none (.ok 201) c5Unh = c5Unh := by
    unfold monitorInstanceStep securityCheck
    rw [staleCheck_of_fresh 10 c5Unh (by norm_num [c5Unh])]
    exact recoveryCheck_of_not200 10 (.ok 201) c5Unh (by simp)
  refine ⟨rfl, by norm_num, hstep, ?_⟩
  rw [hstep]
  simp [c5Unh]

/-- C5 (amended): for an unhealthy instance, a recovery probe answering
exactly HTTP 200 makes the tick set `status = "healthy"`,
`last_heartbeat = now`, and `power_level = min 100 (p * 1.2)` where `p` is
the power level after the staleness decay applied earlier in the same tick
(the decay applies exactly when the heartbeat is stale at tick time). -/
theorem claim_C5_amended_recovery_on_200 (i : ServiceInstance) (now : ℚ)
    (threat : Option SecurityThreat) (hst : i.status = "unhealthy") :
    (monitorInstanceStep now threat (.ok 200) i).status = "healthy" ∧
    (monitorInstanceStep now threat (.ok 200) i).last_heartbeat = now ∧
    (monitorInstanceStep now threat (.ok 200) i).power_level =
      min 100 ((if 30 < now - i.last_heartbeat then i.power_level * (4/5)
                else i.power_level) * (6/5)) := by
  have hs1 : (staleCheck now i).status = "unhealthy" := by
    unfold staleCheck
    by_cases hstale : 30 < now - i.last_heartbeat
    · rw [if_pos hstale]
    · rw [if_neg hstale]
      exact hst
  have hp1 : (staleCheck now i).power_level =
      (if 30 < now - i.last_heartbeat then i.power_level * (4/5)
       else i.power_level) := by
    unfold staleCheck
    by_cases hstale : 30 < now - i.last_heartbeat
    · rw [if_pos hstale, if_pos hstale]
    · rw [if_neg hstale, if_neg hstale]
  obtain ⟨hs2, hb2, hp2⟩ := securityCheck_fields threat (staleCheck now i)
  have hst2 : (securityCheck threat (staleCheck now i)).status = "unhealthy" := by
    rw [hs2, hs1]
  unfold monitorInstanceStep recoveryCheck
  rw [if_pos hst2, if_pos rfl]
  refine ⟨rfl, rfl, ?_⟩
  show min 100 ((securityCheck threat (staleCheck now i)).power_level * (6/5)) = _
  rw [hp2, hp1]

/-- Unhealthy stale instance for the C5 witness (heartbeat 0, tick 40,
power 50): the decay brings it to 40, recovery boosts to 48. -/
def c5UnhStale : ServiceInstance :=
  ⟨"svc", 2, "localhost", 9001, 0, "unhealthy", [], defaultMetrics, "secure", 50⟩

/-- C5 witness: the amended theorem instantiated at a concrete unhealthy
instance; the monitor tick restores health, refreshes the heartbeat and
boosts the (decayed) power by 1.2×. -/
theorem claim_C5_witness :
    c5UnhStale.status = "unhealthy" ∧
    (monitorInstanceStep 40 none (.ok 200) c5UnhStale).status = "healthy" ∧
    (monitorInstanceStep 40 none (.ok 200) c5UnhStale).last_heartbeat = 40 ∧
    (monitorInstanceStep 40 none (.ok 200) c5UnhStale).power_level = 48 := by
  have h := claim_C5_amended_recovery_on_200 c5UnhStale 40 none rfl
  refine ⟨rfl, h.1, h.2.1, ?_⟩
  rw [h.2.2]
  norm_num [c5UnhStale, min_def]

/-- C6: on a monitor tick, (a) a heartbeat older than 30 seconds marks the
instance unhealthy and multiplies its power by 0.8; (b) when the recovery
probe does not answer a literal 200, an instance that was (or just became)
unhealthy ends the tick unhealthy, with the 0.8 decay as the only power
change in the stale case; (c) the tick never sets any instance's status to
`"dead"` — a dead result status can only have been dead before. -/
theorem claim_C6_monitor_transitions (i : ServiceInstance) (now : ℚ)
    (threat : Option SecurityThreat) (probe : ProbeResult) :
    (30 < now - i.last_heartbeat →
      (staleCheck now i).status = "unhealthy" ∧
      (staleCheck now i).power_level = i.power_level * (4/5)) ∧
    (probe ≠ .ok 200 → (i.status = "unhealthy" ∨ 30 < now - i.last_heartbeat) →
      (monitorInstanceStep now threat probe i).status = "unhealthy" ∧
      (30 < now - i.last_heartbeat →
        (monitorInstanceStep now threat probe i).power_level =
          i.power_level * (4/5))) ∧
    ((monitorInstanceStep now threat probe i).status = "dead" →
      i.status = "dead") := by
  obtain ⟨hs2, hb2, hp2⟩ := securityCheck_fields threat (staleCheck now i)
  refine ⟨?_, ?_, ?_⟩
  · intro hstale
    rw [staleCheck_of_stale now i hstale]
    exact ⟨rfl, rfl⟩
  · intro hprobe hunh
    have hs1 : (staleCheck now i).status = "unhealthy" := by
      rcases hunh with hunh | hstale
      · by_cases hstale : 30 < now - i.last_heartbeat
        · rw [staleCheck_of_stale now i hstale]
        · rw [staleCheck_of_fresh now i hstale]
          exact hunh
      · rw [staleCheck_of_stale now i hstale]
    have hmono : monitorInstanceStep now threat probe i =
        securityCheck threat (staleCheck now i) := by
      unfold monitorInstanceStep
      exact recoveryCheck_of_not200 now probe _ hprobe
    constructor
    · rw [hmono, hs2, hs1]
    · intro hstale
      rw [hmono, hp2, staleCheck_of_stale now i hstale]
  · intro hdead
    have h3 : (monitorInstanceStep now threat probe i).status = "healthy" ∨
        (monitorInstanceStep now threat probe i).status =
          (securityCheck threat (staleCheck now i)).status := by
      unfold monitorInstanceStep recoveryCheck
      by_cases hs : (securityCheck threat (staleCheck now i)).status = "unhealthy"
      · rw [if_pos hs]
        by_cases hc : probe = .ok 200
        · rw [if_pos hc]
          exact Or.inl rfl
        · rw [if_neg hc]
          exact Or.inr rfl
      · rw [if_neg hs]
        exact Or.inr rfl
    rcases h3 with h3 | h3
    · rw [hdead] at h3
      exact absurd h3 (by simp)
    · rw [hdead, hs2] at h3
      by_cases hstale : 30 < now - i.last_heartbeat
      · rw [staleCheck_of_stale now i hstale] at h3
        exact absurd h3.symm (by simp)
      · rw [staleCheck_of_fresh now i hstale] at h3
        exact h3.symm

/-- Healthy-but-stale instance for the C6 witness (heartbeat 0, tick 40). -/
def c6Stale : ServiceInstance :=
  ⟨"svc", 1, "localhost", 9000, 0, "healthy", [], defaultMetrics, "secure", 50⟩

/-- C6 witness: at tick time 40 the stale instance is demoted to unhealthy
with power 50 × 0.8 = 40, and a failed probe leaves it unhealthy; a dead
result status would require it to have been dead already. -/
theorem claim_C6_witness :
    (staleCheck 40 c6Stale).status = "unhealthy" ∧
    (staleCheck 40 c6Stale).power_level = 40 ∧
    (monitorInstanceStep 40 none .failed c6Stale).status = "unhealthy" ∧
    (monitorInstanceStep 40 none .failed c6Stale).power_level = 40 ∧
    ((monitorInstanceStep 40 none .failed c6Stale).status = "dead" →
      c6Stale.status = "dead") := by
  obtain ⟨h1, h2, h3⟩ := claim_C6_monitor_transitions c6Stale 40 none .failed
  have hstale : (30:ℚ) < 40 - c6Stale.last_heartbeat := by norm_num [c6Stale]
  obtain ⟨h1a, h1b⟩ := h1 hstale
  obtain ⟨h2a, h2b⟩ := h2 (by simp) (Or.inr hstale)
  refine ⟨h1a, ?_, h2a, ?_, h3⟩
  · rw [h1b]
    norm_num [c6Stale]
  · rw [h2b hstale]
    norm_num [c6Stale]

/-- C7: with at least one registered instance, an allocator pass writes
`(100 / totalInstances) * 1.5` onto every instance of a critical type and
`100 / totalInstances` onto every other instance, records per type the
instance count times the per-instance value, and the power levels of all
non-critical instances sum to `perInstancePower * count`. -/
theorem claim_C7_power_allocation (services : Registry)
    (hpos : 0 < totalInstances services) :
    powerPerInstance services = 100 / (totalInstances services : ℚ) ∧
    (∀ p ∈ (allocate_power services).2, ∀ i ∈ p.2,
      i.power_level = if p.1 ∈ critical_services
        then powerPerInstance services * (3/2) else powerPerInstance services) ∧
    (∀ p ∈ services,
      (p.1, (p.2.length : ℚ) *
        (if p.1 ∈ critical_services then powerPerInstance services * (3/2)
         else powerPerInstance services)) ∈ (allocate_power services).1) ∧
    nonCriticalPowerSum (allocate_power services).2 =
      powerPerInstance services *
        (nonCriticalCount (allocate_power services).2 : ℚ) := by
  have h2eq : (allocate_power services).2 = services.map (fun p =>
      (p.1, p.2.map (fun i =>
        { i with power_level := powerPerInstance services * multiplier p.1 }))) := rfl
  have h1eq : (allocate_power services).1 = services.map (fun p =>
      (p.1, (p.2.length : ℚ) * powerPerInstance services * multiplier p.1)) := rfl
  refine ⟨by unfold powerPerInstance; rw [if_pos hpos], ?_, ?_, ?_⟩
  · intro p hp i hi
    rw [h2eq] at hp
    simp only [List.mem_map] at hp
    obtain ⟨q, hq, rfl⟩ := hp
    simp only [List.mem_map] at hi
    obtain ⟨j, hj, rfl⟩ := hi
    unfold multiplier
    by_cases hc : q.1 ∈ critical_services <;> simp [hc]
  · intro p hp
    rw [h1eq]
    simp only [List.mem_map]
    refine ⟨p, hp, ?_⟩
    unfold multiplier
    by_cases hc : p.1 ∈ critical_services <;> simp [hc] <;> ring
  · rw [h2eq]
    exact nonCriticalPowerSum_setconst (powerPerInstance services) services

def c7a1 : ServiceInstance :=
  ⟨"llm", 1, "localhost", 9000, 0, "healthy", [], defaultMetrics, "secure", 100⟩

def c7a2 : ServiceInstance :=
  ⟨"llm", 2, "localhost", 9001, 0, "healthy", [], defaultMetrics, "secure", 100⟩

def c7b1 : ServiceInstance :=
  ⟨"db", 1, "localhost", 9002, 0, "healthy", [], defaultMetrics, "secure", 100⟩

def c7b2 : ServiceInstance :=
  ⟨"db", 2, "localhost", 9003, 0, "healthy", [], defaultMetrics, "secure", 100⟩

/-- Two `llm` (critical) and two `db` (non-critical) instances. -/
def c7Reg : Registry := [("llm", [c7a1, c7a2]), ("db", [c7b1, c7b2])]

/-- C7 witness: four instances give `perInstancePower = 25`; the theorem
instantiated on this registry, together with the concrete evaluation —
critical instances at 37.5, non-critical at 25, recorded allocations
75 / 50, non-critical power sum 50 = 25 × 2. -/
theorem claim_C7_witness :
    0 < totalInstances c7Reg ∧
    powerPerInstance c7Reg = 25 ∧
    (∀ p ∈ (allocate_power c7Reg).2, ∀ i ∈ p.2,
      i.power_level = if p.1 ∈ critical_services
        then powerPerInstance c7Reg * (3/2) else powerPerInstance c7Reg) ∧
    nonCriticalPowerSum (allocate_power c7Reg).2 =
      powerPerInstance c7Reg * (nonCriticalCount (allocate_power c7Reg).2 : ℚ) ∧
    (allocate_power c7Reg).1 = [("llm", 75), ("db", 50)] ∧
    nonCriticalPowerSum (allocate_power c7Reg).2 = 50 := by
  have hpos : 0 < totalInstances c7Reg := by norm_num [totalInstances, c7Reg]
  have h := claim_C7_power_allocation c7Reg hpos
  refine ⟨hpos, ?_, h.2.1, h.2.2.2, ?_, ?_⟩
  · norm_num [powerPerInstance, totalInstances, c7Reg]
  · norm_num [allocate_power, powerPerInstance, totalInstances, multiplier,
      critical_services, c7Reg]
    decide
  · have hcount : nonCriticalCount (allocate_power c7Reg).2 = 2 := rfl
    rw [h.2.2.2, hcount]
    norm_num [powerPerInstance, totalInstances, c7Reg]

/-! Claims C8-C10: heartbeat and defense protocols. -/

theorem mem_dictKeys_of_dictGet {β : Type} (d : List (String × β)) (k : String)
    (v : β) (h : dictGet d k = some v) : k ∈ dictKeys d := by
  by_contra hmem
  rw [(dictGet_eq_none_iff d k).mpr hmem] at h
  exact absurd h (by simp)

/-- C8 (amended): `update_heartbeat` returns `false` (surfaced by the
endpoint as a 404) exactly when no instance with the given
`(serviceType, instanceId)` is registered, leaving the state untouched;
otherwise it returns `true` and replaces exactly the first matching
instance with one whose `last_heartbeat` is the call time, `status` is
`"healthy"` and whose metrics are the `dict.update` merge of the stored and
supplied metrics, leaving every other instance and every other bucket
unchanged.  (No `busy` flag exists on the stored instance — see the
counterexample.) -/
theorem claim_C8_amended_heartbeat (s : DNSServer) (t : String) (iid : Int)
    (m : Option Metrics) (now : ℚ) :
    ((update_heartbeat s t iid m now).2 = false ↔
      ∀ i ∈ get_instances s.services t, i.instance_id ≠ iid) ∧
    ((update_heartbeat s t iid m now).2 = false →
      (update_heartbeat s t iid m now).1 = s) ∧
    (heartbeat_endpoint s t iid m now = .error 404 ↔
      (update_heartbeat s t iid m now).2 = false) ∧
    (∀ insts pre i post, dictGet s.services t = some insts →
      insts = pre ++ i :: post → (∀ j ∈ pre, j.instance_id ≠ iid) →
      i.instance_id = iid →
      (update_heartbeat s t iid m now).2 = true ∧
      (update_heartbeat s t iid m now).1.services =
        dictSet s.services t (pre ++ hbInstance now m i :: post) ∧
      (∀ t', t' ≠ t →
        dictGet (dictSet s.services t (pre ++ hbInstance now m i :: post)) t' =
          dictGet s.services t') ∧
      (hbInstance now m i).last_heartbeat = now ∧
      (hbInstance now m i).status = "healthy" ∧
      (∀ mm, m = some mm → (dictKeys mm).Nodup → ∀ k,
        (∀ v, dictGet mm k = some v →
          dictGet (hbInstance now m i).performance_metrics k = some v) ∧
        (dictGet mm k = none →
          dictGet (hbInstance now m i).performance_metrics k =
            dictGet i.performance_metrics k))) := by
  refine ⟨?_, ?_, ?_, ?_⟩
  · cases hd : dictGet s.services t with
    | none =>
        simp only [update_heartbeat, hd]
        simp [get_instances, hd]
    | some insts =>
        cases hb : hbList now m iid insts with
        | none =>
            simp only [update_heartbeat, hd, hb]
            simp only [get_instances, hd, Option.getD_some]
            exact ⟨fun _ => (hbList_eq_none_iff now m iid insts).mp hb,
              fun _ => trivial⟩
        | some insts' =>
            simp only [update_heartbeat, hd, hb]
            obtain ⟨pre, i, post, hsplit, -, hiid, -⟩ :=
              hbList_eq_some now m iid insts insts' hb
            simp only [get_instances, hd, Option.getD_some]
            constructor
            · intro hfalse
              exact absurd hfalse (by simp)
            · intro hall
              exact absurd hiid (hall i (by rw [hsplit]; simp))
  · cases hd : dictGet s.services t with
    | none => simp [update_heartbeat, hd]
    | some insts =>
        cases hb : hbList now m iid insts with
        | none => simp [update_heartbeat, hd, hb]
        | some insts' => simp [update_heartbeat, hd, hb]
  · unfold heartbeat_endpoint
    cases hres : (update_heartbeat s t iid m now).2 with
    | false => simp [hres]
    | true => simp [hres]
  · intro insts pre i post hd hsplit hpre hiid
    have hb := hbList_of_split now m iid pre post i hpre hiid
    rw [hsplit] at hd
    refine ⟨by simp [update_heartbeat, hd, hb], by simp [update_heartbeat, hd, hb],
      ?_, rfl, rfl, ?_⟩
    · intro t' ht'
      exact dictGet_dictSet_ne s.services t t' _ ht'
    · intro mm hmm hnodup k
      subst hmm
      cases mm with
      | nil =>
          exact ⟨fun v hv => by simp [dictGet] at hv, fun _ => rfl⟩
      | cons kv rest =>
          have hup : (hbInstance now (some (kv :: rest)) i).performance_metrics =
              dictUpdate i.performance_metrics (kv :: rest) := rfl
          have h := dictGet_dictUpdate (kv :: rest) i.performance_metrics hnodup k
          constructor
          · intro v hv
            rw [hup, h, hv]
          · intro hv
            rw [hup, h, hv]

/-- The heartbeat call shape the original claim supposes,
`Heartbeat(serviceType, instanceId, busy, metrics)`.  The source's
`update_heartbeat` has no `busy` parameter and `ServiceInstance` has no
`busy` field, so the supposed `busy` argument is necessarily ignored. -/
def update_heartbeat_with_busy (s : DNSServer) (t : String) (iid : Int)
    (_busy : Bool) (m : Option Metrics) (now : ℚ) : DNSServer × Bool :=
  update_heartbeat s t iid m now

def c8Inst : ServiceInstance :=
  ⟨"svc", 1, "localhost", 9000, 0, "healthy", [], defaultMetrics, "secure", 100⟩

def c8Server : DNSServer := ⟨[("svc", [c8Inst])], NetworkDefense.init, []⟩

/-- C8 counterexample: no reading of the stored instance can track the
supplied `busy` flag, because a heartbeat for the registered `("svc", 1)`
instance produces a state independent of that flag — the claim's "updates
its busy flag" is false: there is no busy flag. -/
theorem claim_C8_counterexample :
    ¬ ∃ busyOf : ServiceInstance → Bool, ∀ b : Bool,
      ∀ i ∈ get_instances (update_heartbeat_with_busy c8Server "svc" 1 b
        (some [("cpu", 1)]) 40).1.services "svc", busyOf i = b := by
  rintro ⟨busyOf, hb⟩
  have hstate : (update_heartbeat_with_busy c8Server "svc" 1 true
      (some [("cpu", 1)]) 40).1.services =
      [("svc", [hbInstance 40 (some [("cpu", 1)]) c8Inst])] := rfl
  have hmem : hbInstance 40 (some [("cpu", 1)]) c8Inst ∈
      get_instances (update_heartbeat_with_busy c8Server "svc" 1 true
        (some [("cpu", 1)]) 40).1.services "svc" := by
    rw [get_instances, hstate]
    simp [dictGet]
  have hmem' : hbInstance 40 (some [("cpu", 1)]) c8Inst ∈
      get_instances (update_heartbeat_with_busy c8Server "svc" 1 false
        (some [("cpu", 1)]) 40).1.services "svc" := hmem
  have h1 := hb true _ hmem
  have h2 := hb false _ hmem'
  rw [h1] at h2
  exact absurd h2 (by simp)

/-- C8 witness: the amended theorem instantiated concretely — heartbeat on
an unregistered id is refused with 404 and changes nothing, heartbeat on
the registered instance succeeds and merges the supplied cpu metric. -/
theorem claim_C8_witness :
    (update_heartbeat c8Server "svc" 7 none 40).2 = false ∧
    (update_heartbeat c8Server "svc" 7 none 40).1 = c8Server ∧
    heartbeat_endpoint c8Server "svc" 7 none 40 = .error 404 ∧
    (update_heartbeat c8Server "svc" 1 (some [("cpu", 1)]) 40).2 = true ∧
    (update_heartbeat c8Server "svc" 1 (some [("cpu", 1)]) 40).1.services =
      dictSet c8Server.services "svc"
        [hbInstance 40 (some [("cpu", 1)]) c8Inst] ∧
    dictGet (hbInstance 40 (some [("cpu", 1)]) c8Inst).performance_metrics
      "cpu" = some 1 := by
  have h7 := claim_C8_amended_heartbeat c8Server "svc" 7 none 40
  have h1 := claim_C8_amended_heartbeat c8Server "svc" 1 (some [("cpu", 1)]) 40
  have hfalse : (update_heartbeat c8Server "svc" 7 none 40).2 = false := by
    apply h7.1.mpr
    intro i hi
    have : i = c8Inst := by
      simpa [get_instances, c8Server, dictGet] using hi
    rw [this]
    decide
  obtain ⟨ht, hserv, -, -, -, hmerge⟩ :=
    h1.2.2.2 [c8Inst] [] c8Inst [] rfl rfl (by simp) rfl
  refine ⟨hfalse, h7.2.1 hfalse, h7.2.2.1.mpr hfalse, ht, by simpa using hserv, ?_⟩
  exact (hmerge [("cpu", 1)] rfl (by simp [dictKeys_cons, dictKeys_nil])
    "cpu").1 1 rfl

/-- C9: activating a defense protocol fails with 404 exactly when the name
is not one of the three predefined flags (`lockdown`,
`enhanced_monitoring`, `auto_recovery`); a successful activation sets
exactly that flag to `true` and changes nothing else in the defense state. -/
theorem claim_C9_defense_protocols (d : NetworkDefense) (p : String)
    (hkeys : dictKeys d.defense_protocols =
      ["lockdown", "enhanced_monitoring", "auto_recovery"]) :
    (activate_defense_protocol d p = .error 404 ↔
      p ∉ (["lockdown", "enhanced_monitoring", "auto_recovery"] : List String)) ∧
    (∀ d', activate_defense_protocol d p = .ok d' →
      dictGet d'.defense_protocols p = some true ∧
      (∀ q, q ≠ p → dictGet d'.defense_protocols q = dictGet d.defense_protocols q) ∧
      dictKeys d'.defense_protocols = dictKeys d.defense_protocols ∧
      d'.active_threats = d.active_threats ∧
      d'.blocked_ips = d.blocked_ips ∧
      d'.threat_levels = d.threat_levels) := by
  constructor
  · cases hg : dictGet d.defense_protocols p with
    | none =>
        constructor
        · intro
          rw [← hkeys]
          exact (dictGet_eq_none_iff _ _).mp hg
        · intro
          unfold activate_defense_protocol
          rw [hg]
    | some v =>
        simp only [activate_defense_protocol, hg]
        constructor
        · intro hcontra
          exact absurd hcontra (by simp)
        · intro hnot
          exact absurd (hkeys ▸ mem_dictKeys_of_dictGet _ p v hg) hnot
  · intro d' hd'
    unfold activate_defense_protocol at hd'
    cases hg : dictGet d.defense_protocols p with
    | none =>
        rw [hg] at hd'
        exact absurd hd' (by simp)
    | some v =>
        rw [hg] at hd'
        simp only [Except.ok.injEq] at hd'
        rw [← hd']
        refine ⟨dictGet_dictSet_self _ _ _, ?_, ?_, rfl, rfl, rfl⟩
        · intro q hq
          exact dictGet_dictSet_ne _ _ _ _ hq
        · exact dictKeys_dictSet_of_mem _ _ _ (mem_dictKeys_of_dictGet _ p v hg)

/-- C9 witness: the theorem instantiated on the initial defense state —
an unknown protocol name is refused with 404; activating `lockdown` sets
that flag and leaves `enhanced_monitoring` false and `auto_recovery` true. -/
theorem claim_C9_witness :
    activate_defense_protocol NetworkDefense.init "doesnotexist" = .error 404 ∧
    ∃ d', activate_defense_protocol NetworkDefense.init "lockdown" = .ok d' ∧
      dictGet d'.defense_protocols "lockdown" = some true ∧
      dictGet d'.defense_protocols "enhanced_monitoring" = some false ∧
      dictGet d'.defense_protocols "auto_recovery" = some true := by
  have h := claim_C9_defense_protocols NetworkDefense.init "doesnotexist" rfl
  have h2 := claim_C9_defense_protocols NetworkDefense.init "lockdown" rfl
  have hact : activate_defense_protocol NetworkDefense.init "lockdown" =
      .ok { NetworkDefense.init with defense_protocols :=
        [("lockdown", true), ("enhanced_monitoring", false),
          ("auto_recovery", true)] } := rfl
  obtain ⟨hA, hB, -, -, -, -⟩ := h2.2 _ hact
  refine ⟨h.1.mpr (by decide), _, hact, hA, ?_, ?_⟩
  · rw [hB "enhanced_monitoring" (by decide)]
    rfl
  · rw [hB "auto_recovery" (by decide)]
    rfl

/-- C10: a successful heartbeat unconditionally forces
`status = "healthy"` and `last_heartbeat = now` on the stored instance —
whatever its previous status (`unhealthy` or `dead`) and with no recovery
probe involved — leaving `power_level` unchanged, so the instance passes
the `get_service` health filter again whenever its power exceeds 20; and
`update_heartbeat` indeed stores exactly this updated instance for the
matching `(serviceType, instanceId)`. -/
theorem claim_C10_heartbeat_resurrects (i : ServiceInstance) (now : ℚ)
    (m : Option Metrics) :
    (hbInstance now m i).status = "healthy" ∧
    (hbInstance now m i).last_heartbeat = now ∧
    (hbInstance now m i).power_level = i.power_level ∧
    (20 < i.power_level → isSelectable now (hbInstance now m i) = true) ∧
    (∀ s t insts pre post, dictGet s.services t = some insts →
      insts = pre ++ i :: post → (∀ j ∈ pre, j.instance_id ≠ i.instance_id) →
      (update_heartbeat s t i.instance_id m now).2 = true ∧
      dictGet (update_heartbeat s t i.instance_id m now).1.services t =
        some (pre ++ hbInstance now m i :: post)) := by
  refine ⟨rfl, rfl, rfl, ?_, ?_⟩
  · intro hp
    simp [isSelectable, hbInstance, hp]
  · intro s t insts pre post hd hsplit hpre
    have hb := hbList_of_split now m i.instance_id pre post i hpre rfl
    rw [hsplit] at hd
    constructor
    · simp [update_heartbeat, hd, hb]
    · simp only [update_heartbeat, hd, hb]
      exact dictGet_dictSet_self _ _ _

/-- A previously dead instance for the C10 witness. -/
def c10Dead : ServiceInstance :=
  ⟨"svc", 1, "localhost", 9000, 0, "dead", [], defaultMetrics, "secure", 90⟩

def c10Server : DNSServer := ⟨[("svc", [c10Dead])], NetworkDefense.init, []⟩

/-- C10 witness: a heartbeat at time 40 for the dead instance makes it
healthy and selectable again, and stores the updated instance. -/
theorem claim_C10_witness :
    c10Dead.status = "dead" ∧
    (hbInstance 40 none c10Dead).status = "healthy" ∧
    isSelectable 40 (hbInstance 40 none c10Dead) = true ∧
    (update_heartbeat c10Server "svc" 1 none 40).2 = true ∧
    dictGet (update_heartbeat c10Server "svc" 1 none 40).1.services "svc" =
      some [hbInstance 40 none c10Dead] := by
  have h := claim_C10_heartbeat_resurrects c10Dead 40 none
  have h5 := h.2.2.2.2 c10Server "svc" [c10Dead] [] [] rfl rfl (by simp)
  exact ⟨rfl, h.1, h.2.2.2.1 (by norm_num [c10Dead]), h5.1, by simpa using h5.2⟩

end DnsServer
